import Mathlib

/-!
Shallow embedding of two aeon components and proofs about them:

* `aeon/transformations/series/_scaled_logit.py` — `ScaledLogitSeriesTransformer`
  with `_transform` and `_inverse_transform`,
* `aeon/forecasting/_dummy.py` — `DummyForecaster` with `_fit`, `_predict`,
  `_forecast`.

Python floats are modelled as real numbers; numpy arrays as lists of reals
(the transform is elementwise, so one axis suffices and shape plays no role in
the properties below).  Python `None` for an optional bound is `Option.none`.
`warnings.warn` is modelled by accumulating a list of warning tags.  Exceptions
are modelled with `Except`.
-/

open scoped Classical

set_option linter.unusedVariables false

noncomputable section

/-- Python truthiness of an optional float: `None` is falsy and the float `0.0`
is falsy; every other float is truthy.  This is the meaning of the guard
`if self.upper_bound and self.lower_bound:` in the source. -/
def pyTruthy : Option ℝ → Prop
  | none => False
  | some a => a ≠ 0

/-- The value held by an optional bound; only read on branches whose guard
guarantees the bound is present (in the source the attribute is read
directly). -/
def optVal (o : Option ℝ) : ℝ := o.getD 0

/-- The configuration of `ScaledLogitSeriesTransformer`: the two optional
bounds set by `__init__` and never reassigned. -/
structure ScaledLogitSeriesTransformer where
  lower_bound : Option ℝ
  upper_bound : Option ℝ

/-- Warning tags emitted by `_transform` via `warnings.warn`. -/
inductive BoundWarning where
  | upperViolated
  | lowerViolated
  deriving DecidableEq

/-- Result of one call to `_transform` / `_inverse_transform`, recording the
post-call transformer fields, the post-call contents of the argument array,
the warnings emitted, the returned array, and whether the returned array is
the very same object as the argument (`True` would mean aliasing). -/
structure SLCallResult where
  self_after : ScaledLogitSeriesTransformer
  x_after : List ℝ
  warnings : List BoundWarning
  output : List ℝ
  output_aliases_input : Bool

namespace ScaledLogitSeriesTransformer

/-- The branch structure of `_transform` applied to one scalar element:
`if self.upper_bound and self.lower_bound: log((X - a)/(b - X))`,
`elif self.upper_bound is not None: -log(b - X)`,
`elif self.lower_bound is not None: log(X - a)`, else the element is copied. -/
def transformElem (self : ScaledLogitSeriesTransformer) (x : ℝ) : ℝ :=
  if pyTruthy self.upper_bound ∧ pyTruthy self.lower_bound then
    Real.log ((x - optVal self.lower_bound) / (optVal self.upper_bound - x))
  else if self.upper_bound.isSome then
    -Real.log (optVal self.upper_bound - x)
  else if self.lower_bound.isSome then
    Real.log (x - optVal self.lower_bound)
  else
    x

/-- The branch structure of `_inverse_transform` applied to one scalar element:
`if self.upper_bound and self.lower_bound: (b*exp(X) + a)/(exp(X) + 1)`,
`elif self.upper_bound is not None: b - exp(-X)`,
`elif self.lower_bound is not None: exp(X) + a`, else the element is copied. -/
def inverseTransformElem (self : ScaledLogitSeriesTransformer) (x : ℝ) : ℝ :=
  if pyTruthy self.upper_bound ∧ pyTruthy self.lower_bound then
    (optVal self.upper_bound * Real.exp x + optVal self.lower_bound) /
      (Real.exp x + 1)
  else if self.upper_bound.isSome then
    optVal self.upper_bound - Real.exp (-x)
  else if self.lower_bound.isSome then
    Real.exp x + optVal self.lower_bound
  else
    x

/-- The embedding of `_transform(X)`.  The two leading `if` statements emit the
bound-violation warnings (`np.any(X >= self.upper_bound)` /
`np.any(X <= self.lower_bound)`, each guarded by `is not None`); the body then
selects one of four array expressions.  Every branch returns a newly built
array: the three numpy expressions allocate their results and `deepcopy(X)`
copies, and no statement assigns to a field of `self` or writes into `X`. -/
def _transform (self : ScaledLogitSeriesTransformer) (X : List ℝ) :
    SLCallResult where
  self_after := self
  x_after := X
  warnings :=
    (if self.upper_bound.isSome ∧ ∃ x ∈ X, x ≥ optVal self.upper_bound then
      [BoundWarning.upperViolated] else []) ++
    (if self.lower_bound.isSome ∧ ∃ x ∈ X, x ≤ optVal self.lower_bound then
      [BoundWarning.lowerViolated] else [])
  output :=
    if pyTruthy self.upper_bound ∧ pyTruthy self.lower_bound then
      X.map fun x =>
        Real.log ((x - optVal self.lower_bound) / (optVal self.upper_bound - x))
    else if self.upper_bound.isSome then
      X.map fun x => -Real.log (optVal self.upper_bound - x)
    else if self.lower_bound.isSome then
      X.map fun x => Real.log (x - optVal self.lower_bound)
    else
      X
  output_aliases_input := false

/-- The embedding of `_inverse_transform(X)`.  The body is only the four-way
branch: there is no bound check and no call to `warn`, so the warning list is
empty.  As in `_transform`, every branch allocates a fresh array and nothing
mutates `self` or `X`. -/
def _inverse_transform (self : ScaledLogitSeriesTransformer) (X : List ℝ) :
    SLCallResult where
  self_after := self
  x_after := X
  warnings := []
  output :=
    if pyTruthy self.upper_bound ∧ pyTruthy self.lower_bound then
      X.map fun x =>
        (optVal self.upper_bound * Real.exp x + optVal self.lower_bound) /
          (Real.exp x + 1)
    else if self.upper_bound.isSome then
      X.map fun x => optVal self.upper_bound - Real.exp (-x)
    else if self.lower_bound.isSome then
      X.map fun x => Real.exp x + optVal self.lower_bound
    else
      X
  output_aliases_input := false

end ScaledLogitSeriesTransformer

/-- Membership of a scalar in the open interval implied by the configured
bounds: `(a, b)` when both are set, `(a, +inf)` with only the lower,
`(-inf, b)` with only the upper, and all reals when none is set. -/
def inImpliedInterval (self : ScaledLogitSeriesTransformer) (x : ℝ) : Prop :=
  (∀ a, self.lower_bound = some a → a < x) ∧
  (∀ b, self.upper_bound = some b → x < b)

end

/-- Failures the forecaster model can surface: the base class's unfit-model
error and Python's `IndexError` from `y[-1]` on an empty sequence. -/
inductive ForecastErr where
  | unfitModel
  | indexError
  deriving DecidableEq

/-- Python `y[-1]`: the last element of the sequence, or `IndexError` when the
sequence is empty. -/
def pyLastElem (y : List ℝ) : Except ForecastErr ℝ :=
  match y.getLast? with
  | some v => .ok v
  | none => .error .indexError

/-- The state of `DummyForecaster`: the `last_value_` field (`None` until a fit
stores a value) and the fitted flag maintained by the base-class lifecycle. -/
structure DummyForecaster where
  last_value_ : Option ℝ
  is_fitted : Bool

namespace DummyForecaster

/-- `__init__`: `self.last_value_ = None`; the object starts unfitted. -/
def init : DummyForecaster := { last_value_ := none, is_fitted := false }

/-- `_fit(self, y, exog=None)`: `self.last_value_ = y[-1]; return self`. -/
def _fit (self : DummyForecaster) (y : List ℝ) (exog : Option (List ℝ)) :
    Except ForecastErr DummyForecaster :=
  (pyLastElem y).map fun v => { self with last_value_ := some v }

/-- Modelled from the spec: `BaseForecaster.fit` (not under `src/`) runs the
estimator's `_fit` and marks the object fitted; per the spec the lifecycle is
"created empty → populated by exactly one fit call". -/
def fit (self : DummyForecaster) (y : List ℝ) (exog : Option (List ℝ)) :
    Except ForecastErr DummyForecaster :=
  (self._fit y exog).map fun st => { st with is_fitted := true }

/-- `_predict(self, y=None, exog=None)`: `return self.last_value_`. -/
def _predict (self : DummyForecaster) (y exog : Option (List ℝ)) : Option ℝ :=
  self.last_value_

/-- Modelled from the spec: `BaseForecaster.predict` (not under `src/`)
"fails with an unfit model condition if called before fit" — a hard failure,
not a default return — and otherwise dispatches to `_predict`. -/
def predict (self : DummyForecaster) (y exog : Option (List ℝ)) :
    Except ForecastErr (Option ℝ) :=
  if self.is_fitted then .ok (self._predict y exog) else .error .unfitModel

/-- `_forecast(self, y, X=None)`: `return y[-1]`; reads nothing from `self`. -/
def _forecast (self : DummyForecaster) (y : List ℝ) (X : Option (List ℝ)) :
    Except ForecastErr ℝ :=
  pyLastElem y

/-- Modelled from the spec: `BaseForecaster.forecast` (not under `src/`)
dispatches to `_forecast` "without requiring a prior fit call" and "without
persisting state"; the pair returns the call's value together with the
forecaster state after the call. -/
def forecast (self : DummyForecaster) (y : List ℝ) (X : Option (List ℝ)) :
    Except ForecastErr ℝ × DummyForecaster :=
  (self._forecast y X, self)

end DummyForecaster

/-! ### Shared helper lemmas -/

/-- The four-way array branch of `_transform` agrees with mapping the
elementwise branch function over the input. -/
theorem ScaledLogitSeriesTransformer.transform_output_eq_map
    (self : ScaledLogitSeriesTransformer) (X : List ℝ) :
    (self._transform X).output = X.map self.transformElem := by
  by_cases h1 : pyTruthy self.upper_bound ∧ pyTruthy self.lower_bound
  · simp [ScaledLogitSeriesTransformer._transform,
      ScaledLogitSeriesTransformer.transformElem, h1]
  · by_cases h2 : self.upper_bound.isSome
    · simp [ScaledLogitSeriesTransformer._transform,
        ScaledLogitSeriesTransformer.transformElem, h1, h2]
    · by_cases h3 : self.lower_bound.isSome
      · simp [ScaledLogitSeriesTransformer._transform,
          ScaledLogitSeriesTransformer.transformElem, h1, h2, h3]
      · have hu := Option.not_isSome_iff_eq_none.mp h2
        have hl := Option.not_isSome_iff_eq_none.mp h3
        have he : self.transformElem = fun x => x := by
          funext x
          simp [ScaledLogitSeriesTransformer.transformElem, hu, hl, pyTruthy]
        simp [ScaledLogitSeriesTransformer._transform, h1, h2, h3, he]

/-- The four-way array branch of `_inverse_transform` agrees with mapping the
elementwise branch function over the input. -/
theorem ScaledLogitSeriesTransformer.inverse_output_eq_map
    (self : ScaledLogitSeriesTransformer) (X : List ℝ) :
    (self._inverse_transform X).output = X.map self.inverseTransformElem := by
  by_cases h1 : pyTruthy self.upper_bound ∧ pyTruthy self.lower_bound
  · simp [ScaledLogitSeriesTransformer._inverse_transform,
      ScaledLogitSeriesTransformer.inverseTransformElem, h1]
  · by_cases h2 : self.upper_bound.isSome
    · simp [ScaledLogitSeriesTransformer._inverse_transform,
        ScaledLogitSeriesTransformer.inverseTransformElem, h1, h2]
    · by_cases h3 : self.lower_bound.isSome
      · simp [ScaledLogitSeriesTransformer._inverse_transform,
          ScaledLogitSeriesTransformer.inverseTransformElem, h1, h2, h3]
      · have hu := Option.not_isSome_iff_eq_none.mp h2
        have hl := Option.not_isSome_iff_eq_none.mp h3
        have he : self.inverseTransformElem = fun x => x := by
          funext x
          simp [ScaledLogitSeriesTransformer.inverseTransformElem, hu, hl,
            pyTruthy]
        simp [ScaledLogitSeriesTransformer._inverse_transform, h1, h2, h3, he]

/-- Algebraic round trip of the single-upper-bound pair of formulas on the
domain `x < b`. -/
theorem upperFormula_roundtrip (b x : ℝ) (h : x < b) :
    b - Real.exp (-(-Real.log (b - x))) = x := by
  rw [neg_neg, Real.exp_log (by linarith)]
  ring

/-- Algebraic round trip of the single-lower-bound pair of formulas on the
domain `a < x`. -/
theorem lowerFormula_roundtrip (a x : ℝ) (h : a < x) :
    Real.exp (Real.log (x - a)) + a = x := by
  rw [Real.exp_log (by linarith)]
  ring

/-- Algebraic round trip of the two-bound scaled-logit pair of formulas on the
domain `a < x < b`. -/
theorem combinedFormula_roundtrip (a b x : ℝ) (h1 : a < x) (h2 : x < b) :
    (b * Real.exp (Real.log ((x - a) / (b - x))) + a) /
      (Real.exp (Real.log ((x - a) / (b - x))) + 1) = x := by
  have hbx : (0:ℝ) < b - x := by linarith
  have hxa : (0:ℝ) < x - a := by linarith
  have ht : (0:ℝ) < (x - a) / (b - x) := div_pos hxa hbx
  rw [Real.exp_log ht]
  have hne : (x - a) / (b - x) + 1 ≠ 0 := by positivity
  rw [div_eq_iff hne]
  field_simp
  ring

/-- Elementwise round trip: inside the open interval implied by the configured
bounds, `inverseTransformElem` undoes `transformElem`, in every branch
configuration (including the truthiness-selected ones where a bound is 0). -/
theorem ScaledLogitSeriesTransformer.roundtripElem
    (self : ScaledLogitSeriesTransformer) (x : ℝ)
    (h : inImpliedInterval self x) :
    self.inverseTransformElem (self.transformElem x) = x := by
  obtain ⟨lb, ub⟩ := self
  obtain ⟨hl, hu⟩ := h
  cases lb with
  | none =>
    cases ub with
    | none =>
      simp [ScaledLogitSeriesTransformer.transformElem,
        ScaledLogitSeriesTransformer.inverseTransformElem, pyTruthy]
    | some b =>
      have hb : x < b := hu b rfl
      simp only [ScaledLogitSeriesTransformer.transformElem,
        ScaledLogitSeriesTransformer.inverseTransformElem, pyTruthy, optVal,
        Option.getD_some, Option.isSome_some, false_and, and_false, if_false,
        if_true, Option.isSome_none, Bool.false_eq_true]
      exact upperFormula_roundtrip b x hb
  | some a =>
    have ha : a < x := hl a rfl
    cases ub with
    | none =>
      simp only [ScaledLogitSeriesTransformer.transformElem,
        ScaledLogitSeriesTransformer.inverseTransformElem, pyTruthy, optVal,
        Option.getD_some, Option.isSome_some, false_and, if_false, if_true,
        Option.isSome_none, Bool.false_eq_true]
      exact lowerFormula_roundtrip a x ha
    | some b =>
      have hb : x < b := hu b rfl
      by_cases hc : pyTruthy (some b) ∧ pyTruthy (some a)
      · simp only [ScaledLogitSeriesTransformer.transformElem,
          ScaledLogitSeriesTransformer.inverseTransformElem, optVal,
          Option.getD_some, if_pos hc]
        exact combinedFormula_roundtrip a b x ha hb
      · simp only [ScaledLogitSeriesTransformer.transformElem,
          ScaledLogitSeriesTransformer.inverseTransformElem, optVal,
          Option.getD_some, if_neg hc, Option.isSome_some, if_true]
        exact upperFormula_roundtrip b x hb

/-! ### Claim theorems -/

/-- C1: for every configuration of the bounds and every array whose elements
lie strictly inside the open interval implied by the configured bound(s),
`_inverse_transform` applied to the result of `_transform` returns the
original array elementwise. -/
theorem scaledLogit_roundtrip (self : ScaledLogitSeriesTransformer)
    (X : List ℝ) (h : ∀ x ∈ X, inImpliedInterval self x) :
    (self._inverse_transform (self._transform X).output).output = X := by
  rw [ScaledLogitSeriesTransformer.inverse_output_eq_map,
    ScaledLogitSeriesTransformer.transform_output_eq_map, List.map_map]
  have h2 : X.map (self.inverseTransformElem ∘ self.transformElem) =
      X.map id := by
    apply List.map_congr_left
    intro a ha
    simpa using self.roundtripElem a (h a ha)
  rw [h2, List.map_id]

/-- Witness for C1 at `lower_bound = -1`, `upper_bound = 1`, `X = [0]`. -/
theorem scaledLogit_roundtrip_witness :
    (∀ x ∈ [(0:ℝ)], inImpliedInterval ⟨some (-1), some 1⟩ x) ∧
    (ScaledLogitSeriesTransformer._inverse_transform ⟨some (-1), some 1⟩
      ((ScaledLogitSeriesTransformer._transform ⟨some (-1), some 1⟩
        [(0:ℝ)]).output)).output = [(0:ℝ)] := by
  have h : ∀ x ∈ [(0:ℝ)], inImpliedInterval ⟨some (-1), some 1⟩ x := by
    intro x hx
    simp only [List.mem_singleton] at hx
    subst hx
    refine ⟨?_, ?_⟩ <;>
      (intro v hv; simp only [Option.some.injEq] at hv) <;>
      norm_num [← hv]
  exact ⟨h, scaledLogit_roundtrip _ _ h⟩

/-- C7: with both bounds unset, `_transform` and `_inverse_transform` return an
array equal to the input but in fresh storage (the `deepcopy` branch), never
the input object itself. -/
theorem scaledLogit_identity_copy (X : List ℝ) :
    ((ScaledLogitSeriesTransformer._transform ⟨none, none⟩ X).output = X ∧
     (ScaledLogitSeriesTransformer._transform
        ⟨none, none⟩ X).output_aliases_input = false) ∧
    ((ScaledLogitSeriesTransformer._inverse_transform ⟨none, none⟩ X).output
        = X ∧
     (ScaledLogitSeriesTransformer._inverse_transform
        ⟨none, none⟩ X).output_aliases_input = false) := by
  refine ⟨⟨?_, rfl⟩, ?_, rfl⟩ <;>
    simp [ScaledLogitSeriesTransformer._transform,
      ScaledLogitSeriesTransformer._inverse_transform, pyTruthy]

/-- C8: with only `lower_bound = 0` set, `_transform [1, 10]` applies the
single-lower-bound formula `log (x - a)` elementwise, giving
`[log 1, log 10]`, and `_inverse_transform` recovers `[1, 10]`. -/
theorem scaledLogit_lower_zero_example :
    (ScaledLogitSeriesTransformer._transform ⟨some 0, none⟩
      [(1:ℝ), 10]).output = [Real.log 1, Real.log 10] ∧
    (ScaledLogitSeriesTransformer._inverse_transform ⟨some 0, none⟩
      ((ScaledLogitSeriesTransformer._transform ⟨some 0, none⟩
        [(1:ℝ), 10]).output)).output = [(1:ℝ), 10] := by
  constructor
  · simp [ScaledLogitSeriesTransformer._transform, pyTruthy, optVal]
  · have h1 : Real.exp (Real.log (1 - 0)) + 0 = (1:ℝ) := by
      norm_num [Real.exp_log]
    have h10 : Real.exp (Real.log (10 - 0)) + 0 = (10:ℝ) := by
      norm_num [Real.exp_log]
    simp only [ScaledLogitSeriesTransformer._transform,
      ScaledLogitSeriesTransformer._inverse_transform, pyTruthy, optVal]
    norm_num [Real.exp_log]

/-- C9: `_inverse_transform` performs no bound check and emits no warning for
any configuration and input, and applies its four-way formula
unconditionally. -/
theorem scaledLogit_inverse_no_warnings (self : ScaledLogitSeriesTransformer)
    (X : List ℝ) :
    (self._inverse_transform X).warnings = [] ∧
    (self._inverse_transform X).output = X.map self.inverseTransformElem :=
  ⟨rfl, self.inverse_output_eq_map X⟩

/-- C10: neither `_transform` nor `_inverse_transform` mutates the input array
or the configured bounds, and the returned array is freshly allocated (never
an alias of the input). -/
theorem scaledLogit_frame (self : ScaledLogitSeriesTransformer) (X : List ℝ) :
    (self._transform X).self_after = self ∧
    (self._transform X).x_after = X ∧
    (self._transform X).output_aliases_input = false ∧
    (self._inverse_transform X).self_after = self ∧
    (self._inverse_transform X).x_after = X ∧
    (self._inverse_transform X).output_aliases_input = false :=
  ⟨rfl, rfl, rfl, rfl, rfl, rfl⟩

/-- C3: calling predict on the forecaster before any fit call fails with the
hard unfit-model error and never returns an ok value (in particular not a
silent `None`). -/
theorem dummyForecaster_predict_unfit (y exog : Option (List ℝ)) :
    DummyForecaster.init.predict y exog = .error .unfitModel ∧
    ∀ v, DummyForecaster.init.predict y exog ≠ .ok v := by
  have h : DummyForecaster.init.predict y exog = .error .unfitModel := by
    simp [DummyForecaster.predict, DummyForecaster.init]
  exact ⟨h, fun v hv => by rw [h] at hv; exact Except.noConfusion hv⟩

/-- C5: for every non-empty sequence `s`, fitting and then predicting returns
exactly the stored last element `s[-1]`, whatever `y` or exogenous covariates
are passed to predict (and to fit). -/
theorem dummyForecaster_fit_predict_last (s : List ℝ) (hs : s ≠ [])
    (exogF y exog : Option (List ℝ)) :
    (DummyForecaster.init.fit s exogF).bind (fun st => st.predict y exog)
      = Except.ok (some (s.getLast hs)) := by
  have h : s.getLast? = some (s.getLast hs) := List.getLast?_eq_getLast s hs
  simp [DummyForecaster.fit, DummyForecaster._fit, pyLastElem, h,
    DummyForecaster.predict, DummyForecaster._predict, Except.map,
    Except.bind, DummyForecaster.init]

/-- Witness for C5 at `s = [3, 7]`: the forecast is `7`. -/
theorem dummyForecaster_fit_predict_last_witness :
    ([(3:ℝ), 7] ≠ ([] : List ℝ)) ∧
    (DummyForecaster.init.fit [(3:ℝ), 7] none).bind
      (fun st => st.predict none none)
      = Except.ok (some (([(3:ℝ), 7]).getLast (by simp))) :=
  ⟨by simp, dummyForecaster_fit_predict_last [(3:ℝ), 7] (by simp) none none
    none⟩

/-- C6: forecast returns the last element of the given sequence without
requiring a prior fit (it works on any forecaster state) and without
persisting state: the forecaster after the call, including `last_value_`,
equals the forecaster before it. -/
theorem dummyForecaster_forecast_stateless (st : DummyForecaster)
    (s : List ℝ) (hs : s ≠ []) (X : Option (List ℝ)) :
    (st.forecast s X).1 = Except.ok (s.getLast hs) ∧
    (st.forecast s X).2 = st := by
  have h : s.getLast? = some (s.getLast hs) := List.getLast?_eq_getLast s hs
  exact ⟨by simp [DummyForecaster.forecast, DummyForecaster._forecast,
    pyLastElem, h], rfl⟩

/-- Witness for C6 on the never-fitted forecaster and `s = [2, 9]`. -/
theorem dummyForecaster_forecast_stateless_witness :
    ([(2:ℝ), 9] ≠ ([] : List ℝ)) ∧
    ((DummyForecaster.init.forecast [(2:ℝ), 9] none).1
        = Except.ok (([(2:ℝ), 9]).getLast (by simp)) ∧
     (DummyForecaster.init.forecast [(2:ℝ), 9] none).2
        = DummyForecaster.init) :=
  ⟨by simp, dummyForecaster_forecast_stateless DummyForecaster.init
    [(2:ℝ), 9] (by simp) none⟩

/-- The source's upper-bound violation guard
`self.upper_bound is not None and np.any(X >= self.upper_bound)` phrased via
the bound value. -/
theorem upperViolation_iff (self : ScaledLogitSeriesTransformer) (X : List ℝ) :
    (∃ b, self.upper_bound = some b ∧ ∃ x ∈ X, b ≤ x) ↔
      (self.upper_bound.isSome ∧ ∃ x ∈ X, x ≥ optVal self.upper_bound) := by
  cases hu : self.upper_bound with
  | none => simp
  | some b => simp [optVal, ge_iff_le]

/-- The source's lower-bound violation guard
`self.lower_bound is not None and np.any(X <= self.lower_bound)` phrased via
the bound value. -/
theorem lowerViolation_iff (self : ScaledLogitSeriesTransformer) (X : List ℝ) :
    (∃ a, self.lower_bound = some a ∧ ∃ x ∈ X, x ≤ a) ↔
      (self.lower_bound.isSome ∧ ∃ x ∈ X, x ≤ optVal self.lower_bound) := by
  cases hl : self.lower_bound with
  | none => simp
  | some a => simp [optVal]

/-- C4: when the input has an element at or beyond a configured bound,
`_transform` does not fail: it emits exactly one warning per violated bound
(so the warning list is non-empty) and still returns the output computed by
the same elementwise formula as for in-domain input. -/
theorem scaledLogit_transform_warns_not_raises
    (self : ScaledLogitSeriesTransformer) (X : List ℝ)
    (h : (∃ b, self.upper_bound = some b ∧ ∃ x ∈ X, b ≤ x) ∨
         (∃ a, self.lower_bound = some a ∧ ∃ x ∈ X, x ≤ a)) :
    ((∃ b, self.upper_bound = some b ∧ ∃ x ∈ X, b ≤ x) →
        (self._transform X).warnings.count BoundWarning.upperViolated = 1) ∧
    ((∃ a, self.lower_bound = some a ∧ ∃ x ∈ X, x ≤ a) →
        (self._transform X).warnings.count BoundWarning.lowerViolated = 1) ∧
    (self._transform X).warnings ≠ [] ∧
    (self._transform X).output = X.map self.transformElem := by
  have hout := ScaledLogitSeriesTransformer.transform_output_eq_map self X
  have hup := upperViolation_iff self X
  have hlo := lowerViolation_iff self X
  by_cases c1 : self.upper_bound.isSome ∧ ∃ x ∈ X, x ≥ optVal self.upper_bound
  · by_cases c2 :
        self.lower_bound.isSome ∧ ∃ x ∈ X, x ≤ optVal self.lower_bound
    · refine ⟨fun _ => ?_, fun _ => ?_, ?_, hout⟩ <;>
        simp [ScaledLogitSeriesTransformer._transform, c1, c2]
    · refine ⟨fun _ => ?_, fun hc => absurd (hlo.mp hc) c2, ?_, hout⟩ <;>
        simp [ScaledLogitSeriesTransformer._transform, c1, c2]
  · by_cases c2 :
        self.lower_bound.isSome ∧ ∃ x ∈ X, x ≤ optVal self.lower_bound
    · refine ⟨fun hc => absurd (hup.mp hc) c1, fun _ => ?_, ?_, hout⟩ <;>
        simp [ScaledLogitSeriesTransformer._transform, c1, c2]
    · rcases h with hU | hL
      · exact absurd (hup.mp hU) c1
      · exact absurd (hlo.mp hL) c2

/-- Witness for C4 with `upper_bound = 100` and `X = [100, 150]`. -/
theorem scaledLogit_transform_warns_not_raises_witness :
    ((∃ b, (⟨none, some 100⟩ :
        ScaledLogitSeriesTransformer).upper_bound = some b ∧
        ∃ x ∈ [(100:ℝ), 150], b ≤ x) ∨
     (∃ a, (⟨none, some 100⟩ :
        ScaledLogitSeriesTransformer).lower_bound = some a ∧
        ∃ x ∈ [(100:ℝ), 150], x ≤ a)) ∧
    (((∃ b, (⟨none, some 100⟩ :
        ScaledLogitSeriesTransformer).upper_bound = some b ∧
        ∃ x ∈ [(100:ℝ), 150], b ≤ x) →
        ((ScaledLogitSeriesTransformer._transform ⟨none, some 100⟩
          [(100:ℝ), 150]).warnings.count BoundWarning.upperViolated = 1)) ∧
     ((∃ a, (⟨none, some 100⟩ :
        ScaledLogitSeriesTransformer).lower_bound = some a ∧
        ∃ x ∈ [(100:ℝ), 150], x ≤ a) →
        ((ScaledLogitSeriesTransformer._transform ⟨none, some 100⟩
          [(100:ℝ), 150]).warnings.count BoundWarning.lowerViolated = 1)) ∧
     (ScaledLogitSeriesTransformer._transform ⟨none, some 100⟩
        [(100:ℝ), 150]).warnings ≠ [] ∧
     (ScaledLogitSeriesTransformer._transform ⟨none, some 100⟩
        [(100:ℝ), 150]).output =
        ([(100:ℝ), 150]).map
          (ScaledLogitSeriesTransformer.transformElem ⟨none, some 100⟩)) := by
  have h : (∃ b, (⟨none, some 100⟩ :
      ScaledLogitSeriesTransformer).upper_bound = some b ∧
      ∃ x ∈ [(100:ℝ), 150], b ≤ x) ∨
     (∃ a, (⟨none, some 100⟩ :
      ScaledLogitSeriesTransformer).lower_bound = some a ∧
      ∃ x ∈ [(100:ℝ), 150], x ≤ a) := by
    left
    exact ⟨100, rfl, 100, by norm_num, le_refl _⟩
  exact ⟨h, scaledLogit_transform_warns_not_raises _ _ h⟩

/-- C2 counterexample: with `lower_bound = 3` and `upper_bound = 0` (both
configured, upper equal to numeric zero, hence falsy), the combined branch is
skipped, but the formula applied is the single-UPPER-bound formula
`-log(b - x)` with `b = 0`, not the single-bound formula of the remaining
(lower) bound `log(x - a)`: at `x = -2` the code computes `-log 2` while
`log(x - 3)` is `log (-5)`, and the two differ. -/
theorem scaledLogit_zero_bound_counterexample :
    ScaledLogitSeriesTransformer.transformElem ⟨some 3, some 0⟩ (-2)
      = -Real.log (0 - (-2)) ∧
    ScaledLogitSeriesTransformer.transformElem ⟨some 3, some 0⟩ (-2)
      ≠ Real.log ((-2) - 3) := by
  have h1 : ScaledLogitSeriesTransformer.transformElem ⟨some 3, some 0⟩ (-2)
      = -Real.log (0 - (-2)) := by
    simp [ScaledLogitSeriesTransformer.transformElem, pyTruthy, optVal]
  refine ⟨h1, ?_⟩
  rw [h1]
  have e1 : (0:ℝ) - (-2) = 2 := by norm_num
  have e2 : ((-2):ℝ) - 3 = -5 := by norm_num
  rw [e1, e2]
  have e3 : Real.log (-5 : ℝ) = Real.log 5 := Real.log_neg_eq_log 5
  rw [e3]
  have l2 : 0 < Real.log 2 := Real.log_pos (by norm_num)
  have l5 : 0 < Real.log 5 := Real.log_pos (by norm_num)
  intro heq
  linarith

/-- C2 amended: in both `transformElem` and `inverseTransformElem`, when both
bounds are configured but at least one equals numeric zero, the truthiness
guard skips the combined two-bound formula and the single-upper-bound formula
(`-log(b - x)` forward, `b - exp(-x)` inverse) is applied instead, because the
first `elif` tests `upper_bound is not None`; this coincides with the
remaining bound's single-bound formula only when the zero bound is the lower
one. -/
theorem scaledLogit_zero_bound_upper_formula (a b x : ℝ)
    (h : a = 0 ∨ b = 0) :
    ScaledLogitSeriesTransformer.transformElem ⟨some a, some b⟩ x
      = -Real.log (b - x) ∧
    ScaledLogitSeriesTransformer.inverseTransformElem ⟨some a, some b⟩ x
      = b - Real.exp (-x) := by
  have hc : ¬(pyTruthy (some b) ∧ pyTruthy (some a)) := by
    rcases h with h | h <;> simp [pyTruthy, h]
  constructor <;>
    simp [ScaledLogitSeriesTransformer.transformElem,
      ScaledLogitSeriesTransformer.inverseTransformElem, hc, optVal]

/-- Witness for the amended C2 at `lower_bound = 0`, `upper_bound = 5`,
`x = 1`. -/
theorem scaledLogit_zero_bound_upper_formula_witness :
    ((0:ℝ) = 0 ∨ (5:ℝ) = 0) ∧
    (ScaledLogitSeriesTransformer.transformElem ⟨some 0, some 5⟩ 1
        = -Real.log (5 - 1) ∧
     ScaledLogitSeriesTransformer.inverseTransformElem ⟨some 0, some 5⟩ 1
        = 5 - Real.exp (-1)) :=
  ⟨Or.inl rfl, scaledLogit_zero_bound_upper_formula 0 5 1 (Or.inl rfl)⟩
